import Mathlib

/-!
Verification development for the New_PDFCleaner repository.

The repository contains three script variants:
  * `CleanerBase.py`  — PyMuPDF (fitz) based batch tool (`check_blank_page`,
    `process_pdf`, `process_files`);
  * `CleanerBase1.py` — PyPDF2 based single-file tool (`is_blank_page`,
    `process_pdf`), temp file written next to the original;
  * `CleanerBase2.py` — PyPDF2 based tool (`is_blank_page`, `process_pdf`,
    `process_folder`), temp file created by `tempfile.NamedTemporaryFile`,
    and the module never defines `OCR_TEXT_LENGTH_THRESHOLD`.

This file is a shallow embedding of those scripts.  External tooling
(pdf rasterization, OCR, the filesystem) is modelled by explicit oracles
(`OcrOutcome`, failure flags) and by an event trace interpreted over an
abstract filesystem state `FS`.
-/

namespace PDFCleaner

/-- Outcome of the rasterize-plus-OCR stage for one page, as an oracle:
`raises` models `convert_from_path`/`image_to_string` raising an exception,
`noImage` models `convert_from_path` returning an empty list, and
`text s` models OCR succeeding with output `s`. -/
inductive OcrOutcome where
  | raises : OcrOutcome
  | noImage : OcrOutcome
  | text : String → OcrOutcome
deriving DecidableEq

/-- A PDF page, reduced to the two views the scripts consult: the embedded
text layer as returned by PyPDF2's `extract_text` (`none` models Python's
`None`), and the OCR oracle for the page. -/
structure Page where
  extract_text : Option String
  ocr : OcrOutcome
deriving DecidableEq

/-- fitz's `page.get_text("text")` always returns a string; a page with no
text layer yields the empty string. -/
def Page.get_text (p : Page) : String :=
  p.extract_text.getD ""

/-- Python's `str.strip()`: remove leading and trailing whitespace.  Defined
structurally over the character list so that it evaluates inside the
kernel. -/
def pyStrip (s : String) : String :=
  String.mk (((s.data.dropWhile Char.isWhitespace).reverse.dropWhile
    Char.isWhitespace).reverse)

/-- The text layer strips to nothing (Python: `text` is `None` or
`text.strip() == ""`).  This is exactly the condition under which all three
variants fall through to the rasterize/OCR stage. -/
def textLayerEmpty (p : Page) : Bool :=
  match p.extract_text with
  | some t => decide (pyStrip t = "")
  | none => true

/-- Abstract byte content of a file on disk.  `originalBytes doc` is the
source PDF as it was on disk; `rebuilt kept` is the byte stream produced by
serializing the kept pages with the PDF writer.  Distinct constructors model
that a writer's serialization is a different byte stream from the original
file. -/
inductive FileData where
  | originalBytes : List Page → FileData
  | rebuilt : List Page → FileData
deriving DecidableEq

/-- Where a temporary output file is created: `sameDir` models
`file_path + ".temp"` (CleanerBase1), `systemTmp` models
`tempfile.NamedTemporaryFile` in the system temp directory (CleanerBase2). -/
inductive TempLoc where
  | sameDir : TempLoc
  | systemTmp : TempLoc
deriving DecidableEq

/-- Filesystem effects performed by the scripts, in program order. -/
inductive FsEvent where
  | copyToBackup : FsEvent
  | writeTemp : TempLoc → FileData → FsEvent
  | moveTempToOriginal : FsEvent
  | saveToOriginal : FileData → FsEvent
  | removeBackup : FsEvent
deriving DecidableEq

/-- Abstract filesystem state around one processed file: the content at the
original path, the content at the backup path (`none` = absent), and the
temporary output file (`none` = absent). -/
structure FS where
  original : FileData
  backup : Option FileData
  temp : Option (TempLoc × FileData)
deriving DecidableEq

/-- Initial filesystem state: the original file holds the source document,
no backup, no temp file. -/
def FS.init (doc : List Page) : FS :=
  ⟨FileData.originalBytes doc, none, none⟩

/-- Interpret one filesystem event. -/
def applyEvent (fs : FS) : FsEvent → FS
  | FsEvent.copyToBackup => { fs with backup := some fs.original }
  | FsEvent.writeTemp loc d => { fs with temp := some (loc, d) }
  | FsEvent.moveTempToOriginal =>
      match fs.temp with
      | some (_, d) => { fs with original := d, temp := none }
      | none => fs
  | FsEvent.saveToOriginal d => { fs with original := d }
  | FsEvent.removeBackup => { fs with backup := none }

/-- Interpret a trace of filesystem events. -/
def applyEvents (fs : FS) (es : List FsEvent) : FS :=
  es.foldl applyEvent fs

namespace CleanerBase

/-- `check_blank_page` from `CleanerBase.py` (lines 40-55).  With
`use_ocr = False`: blank iff `page.get_text("text").strip()` is empty.  With
`use_ocr = True`: no rasterized image → blank; OCR text stripping to fewer
than 5 characters → blank; any exception → **not** blank (line 52:
`return False  # If OCR fails, do not mark as blank.`). -/
def check_blank_page (page : Page) (use_ocr : Bool) : Bool :=
  if use_ocr then
    match page.ocr with
    | OcrOutcome.raises => false
    | OcrOutcome.noImage => true
    | OcrOutcome.text s => decide ((pyStrip s).length < 5)
  else
    decide (pyStrip page.get_text = "")

/-- First pass of `process_pdf` (lines 69-73): indices collected by the
text-extraction check. -/
def blank_pages_text (doc : List Page) : List Nat :=
  (List.range doc.length).filter (fun i =>
    match doc.get? i with
    | some p => check_blank_page p false
    | none => false)

/-- Second pass of `process_pdf` (lines 75-81): the OCR check runs only on
the indices already collected by the text pass, and keeps those it confirms
blank. -/
def blank_pages_ocr (doc : List Page) : List Nat :=
  (blank_pages_text doc).filter (fun i =>
    match doc.get? i with
    | some p => check_blank_page p true
    | none => false)

/-- Pages copied into the new document (lines 87-89): every page whose index
is not in the confirmed blank list, in original order. -/
def kept_pages (doc : List Page) : List Page :=
  ((List.range doc.length).filter (fun i => !(blank_pages_ocr doc).contains i)).filterMap
    doc.get?

/-- Terminal outcome of `CleanerBase.process_pdf` for one file, as recorded
in its log lines: `modified total removed` (line 94), `noChanges total`
(line 98), `errorOther` (the catch-all `except` at lines 100-102). -/
inductive Outcome where
  | modified : Nat → Nat → Outcome
  | noChanges : Nat → Outcome
  | errorOther : Outcome
deriving DecidableEq

/-- Environment oracles for one `CleanerBase.process_pdf` run: the document's
pages, whether `fitz.open` raises, and whether saving a zero-page document
raises (PyMuPDF raises "cannot save with zero pages"; the flag keeps the
embedding parametric in that external behavior). -/
structure Env where
  doc : List Page
  openFails : Bool
  zeroPageSaveRaises : Bool
deriving DecidableEq

/-- `process_pdf` from `CleanerBase.py` (lines 62-106), as outcome plus
filesystem event trace.  When blank pages were confirmed, the script copies
the original to `filepath + ".bak"`, builds the trimmed document, and saves
it **directly onto the original path** (line 90: `new_doc.save(filepath)`),
then removes the backup.  There is no all-pages-blank branch: with zero kept
pages the save is still attempted. -/
def process_pdf (env : Env) : Outcome × List FsEvent :=
  if env.openFails then (Outcome.errorOther, [])
  else
    let total := env.doc.length
    let dropped := blank_pages_ocr env.doc
    if dropped.isEmpty then (Outcome.noChanges total, [])
    else
      let kept := kept_pages env.doc
      if kept.isEmpty && env.zeroPageSaveRaises then
        (Outcome.errorOther, [FsEvent.copyToBackup])
      else
        (Outcome.modified total dropped.length,
          [FsEvent.copyToBackup, FsEvent.saveToOriginal (FileData.rebuilt kept),
            FsEvent.removeBackup])

/-- `process_files` from `CleanerBase.py` (lines 122-125): before each file
it reads the global `stop_requested` flag and breaks if set; otherwise the
file is processed and appended to the run's records.  `stop_requested i` is
the flag's value at the check preceding the `i`-th file. -/
def process_files (files : List String) (stop_requested : Nat → Bool) : List String :=
  match files with
  | [] => []
  | f :: fs =>
      if stop_requested 0 then []
      else f :: process_files fs (fun i => stop_requested (i + 1))

end CleanerBase

/-- Terminal outcome of the PyPDF2-based `process_pdf` (CleanerBase1 and
CleanerBase2): the early-return branches (backup copy failed, `PdfReader`
failed, "All pages are blank", temp write failed, replace failed) and the
final success message with total and removed page counts. -/
inductive PyOutcome where
  | backupFailed : PyOutcome
  | readFailed : PyOutcome
  | allPagesBlank : PyOutcome
  | writeFailed : PyOutcome
  | moveFailed : PyOutcome
  | success : Nat → Nat → PyOutcome
deriving DecidableEq

/-- Environment oracles for one PyPDF2-based `process_pdf` run: the
document's pages and whether each fallible external step raises. -/
structure PyEnv where
  doc : List Page
  backupFails : Bool
  readFails : Bool
  writeFails : Bool
  moveFails : Bool
  removeBackupFails : Bool
deriving DecidableEq

/-- The shared body of `process_pdf` in `CleanerBase1.py` (lines 62-129) and
`CleanerBase2.py` (lines 62-121), which differ only in the blank-page
classifier and in where the temporary file is created (`loc`).  Steps, in
source order: copy the original to `<name>.backup` (early return on
failure); `PdfReader(file_path)` (early return on failure, backup left on
disk); classify every page, keeping the non-blank ones; if no page is kept,
warn "All pages are blank" and return without writing; write the kept pages
to a temporary file; `shutil.move` the temporary file onto the original
path; finally try to delete the backup (a failure there is logged and
ignored). -/
def py_process_pdf (is_blank : Page → Bool) (loc : TempLoc) (env : PyEnv) :
    PyOutcome × List FsEvent :=
  if env.backupFails then (PyOutcome.backupFailed, [])
  else if env.readFails then (PyOutcome.readFailed, [FsEvent.copyToBackup])
  else
    let total := env.doc.length
    let removed := (env.doc.filter is_blank).length
    let kept := env.doc.filter (fun p => !(is_blank p))
    if kept.isEmpty then (PyOutcome.allPagesBlank, [FsEvent.copyToBackup])
    else if env.writeFails then (PyOutcome.writeFailed, [FsEvent.copyToBackup])
    else if env.moveFails then
      (PyOutcome.moveFailed,
        [FsEvent.copyToBackup, FsEvent.writeTemp loc (FileData.rebuilt kept)])
    else if env.removeBackupFails then
      (PyOutcome.success total removed,
        [FsEvent.copyToBackup, FsEvent.writeTemp loc (FileData.rebuilt kept),
          FsEvent.moveTempToOriginal])
    else
      (PyOutcome.success total removed,
        [FsEvent.copyToBackup, FsEvent.writeTemp loc (FileData.rebuilt kept),
          FsEvent.moveTempToOriginal, FsEvent.removeBackup])

namespace CleanerBase1

/-- `OCR_TEXT_LENGTH_THRESHOLD = 5` (`CleanerBase1.py`, line 15). -/
def OCR_TEXT_LENGTH_THRESHOLD : Nat := 5

/-- The rasterize/OCR stage of `is_blank_page` (`CleanerBase1.py`,
lines 42-59): no image → blank; OCR text truthy and stripping to at least
`OCR_TEXT_LENGTH_THRESHOLD` characters → not blank, otherwise blank; any
exception → blank (lines 56-59: "If OCR fails, to be safe, consider the
page blank"). -/
def ocr_stage (page : Page) : Bool :=
  match page.ocr with
  | OcrOutcome.raises => true
  | OcrOutcome.noImage => true
  | OcrOutcome.text s =>
      if s ≠ "" ∧ OCR_TEXT_LENGTH_THRESHOLD ≤ (pyStrip s).length then false
      else true

/-- `is_blank_page` from `CleanerBase1.py` (lines 18-59): non-empty stripped
text → not blank, without entering the OCR stage; otherwise the OCR stage
decides. -/
def is_blank_page (page : Page) : Bool :=
  match page.extract_text with
  | some t => if pyStrip t ≠ "" then false else ocr_stage page
  | none => ocr_stage page

/-- `process_pdf` from `CleanerBase1.py`: the temporary file is
`file_path + ".temp"`, a sibling of the original (line 104). -/
def process_pdf (env : PyEnv) : PyOutcome × List FsEvent :=
  py_process_pdf is_blank_page TempLoc.sameDir env

end CleanerBase1

namespace CleanerBase2

/-- `CleanerBase2.py` never defines `OCR_TEXT_LENGTH_THRESHOLD` (there is no
assignment and no import of that name anywhere in the module); the module
namespace has no binding for it, so evaluating the name raises `NameError`. -/
def OCR_TEXT_LENGTH_THRESHOLD : Option Nat := none

/-- A Python runtime error relevant here. -/
inductive PyError where
  | nameError : PyError
deriving DecidableEq

/-- Evaluation of line 50 of `CleanerBase2.py`,
`ocr_text and len(ocr_text.strip()) >= OCR_TEXT_LENGTH_THRESHOLD`: `and`
short-circuits, so an empty (falsy) `ocr_text` yields `False` without
touching the comparison; a non-empty `ocr_text` forces evaluation of the
comparison, whose name lookup raises `NameError` because the module never
binds `OCR_TEXT_LENGTH_THRESHOLD`. -/
def threshold_test (s : String) : Except PyError Bool :=
  if s = "" then Except.ok false
  else
    match OCR_TEXT_LENGTH_THRESHOLD with
    | none => Except.error PyError.nameError
    | some k => Except.ok (decide (k ≤ (pyStrip s).length))

/-- The rasterize/OCR stage of `is_blank_page` (`CleanerBase2.py`,
lines 42-59): the `except Exception` handler (lines 56-59) also catches the
`NameError` from the undefined threshold, returning blank. -/
def ocr_stage (page : Page) : Bool :=
  match page.ocr with
  | OcrOutcome.raises => true
  | OcrOutcome.noImage => true
  | OcrOutcome.text s =>
      match threshold_test s with
      | Except.ok true => false
      | Except.ok false => true
      | Except.error _ => true

/-- `is_blank_page` from `CleanerBase2.py` (lines 18-59). -/
def is_blank_page (page : Page) : Bool :=
  match page.extract_text with
  | some t => if pyStrip t ≠ "" then false else ocr_stage page
  | none => ocr_stage page

/-- `process_pdf` from `CleanerBase2.py`: the temporary file comes from
`tempfile.NamedTemporaryFile` (lines 99-100), i.e. it lives in the system
temp directory, not in the original file's directory. -/
def process_pdf (env : PyEnv) : PyOutcome × List FsEvent :=
  py_process_pdf is_blank_page TempLoc.systemTmp env

end CleanerBase2

/-- Stripping the empty string yields the empty string. -/
theorem pyStrip_empty : pyStrip "" = "" := rfl

/-- The text-extraction check of `CleanerBase.check_blank_page` flags exactly
the pages whose text layer strips to nothing. -/
theorem check_blank_page_false_eq (p : Page) :
    CleanerBase.check_blank_page p false = textLayerEmpty p := by
  cases hp : p.extract_text with
  | none =>
      simp [CleanerBase.check_blank_page, textLayerEmpty, Page.get_text, hp, pyStrip_empty]
  | some t =>
      simp [CleanerBase.check_blank_page, textLayerEmpty, Page.get_text, hp]

/-- Unpacking membership in the text pass of `CleanerBase.process_pdf`. -/
theorem mem_blank_pages_text {doc : List Page} {i : Nat}
    (h : i ∈ CleanerBase.blank_pages_text doc) :
    ∃ p, doc.get? i = some p ∧ textLayerEmpty p = true := by
  unfold CleanerBase.blank_pages_text at h
  rw [List.mem_filter] at h
  obtain ⟨-, hcond⟩ := h
  cases hg : doc.get? i with
  | none =>
      simp only [hg] at hcond
      exact absurd hcond (by decide)
  | some p =>
      simp only [hg] at hcond
      exact ⟨p, rfl, by rw [← check_blank_page_false_eq]; exact hcond⟩

/-- The OCR pass of `CleanerBase.process_pdf` only filters the text pass. -/
theorem blank_pages_ocr_subset (doc : List Page) :
    CleanerBase.blank_pages_ocr doc ⊆ CleanerBase.blank_pages_text doc :=
  List.filter_subset' _

/-- Unpacking membership in the confirmed blank list of
`CleanerBase.process_pdf`. -/
theorem mem_blank_pages_ocr {doc : List Page} {i : Nat}
    (h : i ∈ CleanerBase.blank_pages_ocr doc) :
    ∃ p, doc.get? i = some p ∧ textLayerEmpty p = true ∧
      CleanerBase.check_blank_page p true = true := by
  have htext := mem_blank_pages_text (blank_pages_ocr_subset doc h)
  unfold CleanerBase.blank_pages_ocr at h
  rw [List.mem_filter] at h
  obtain ⟨-, hcond⟩ := h
  obtain ⟨p, hg, hempty⟩ := htext
  refine ⟨p, hg, hempty, ?_⟩
  simp only [hg] at hcond
  exact hcond

/-- A page that `CleanerBase1.is_blank_page` marks blank must have fallen
through the text check into the OCR stage. -/
theorem is_blank_page1_split {p : Page} (h : CleanerBase1.is_blank_page p = true) :
    textLayerEmpty p = true ∧ CleanerBase1.ocr_stage p = true := by
  unfold CleanerBase1.is_blank_page at h
  cases hp : p.extract_text with
  | none => simp only [hp] at h; exact ⟨by simp [textLayerEmpty, hp], h⟩
  | some t =>
      simp only [hp] at h
      by_cases ht : pyStrip t ≠ ""
      · rw [if_pos ht] at h; exact absurd h (by simp)
      · rw [if_neg ht] at h
        push_neg at ht
        exact ⟨by simp [textLayerEmpty, hp, ht], h⟩

/-- The OCR stage of `CleanerBase2.is_blank_page` returns blank on every
oracle outcome: exceptions and missing images by the handler, an empty OCR
string by short-circuit, and a non-empty OCR string through the `NameError`
raised by the undefined threshold. -/
theorem cleanerBase2_ocr_stage_true (p : Page) : CleanerBase2.ocr_stage p = true := by
  unfold CleanerBase2.ocr_stage
  cases p.ocr with
  | raises => rfl
  | noImage => rfl
  | text s =>
      simp only [CleanerBase2.threshold_test, CleanerBase2.OCR_TEXT_LENGTH_THRESHOLD]
      by_cases hs : s = ""
      · rw [if_pos hs]
      · rw [if_neg hs]

/-- C5: a page whose extracted text strips to something non-empty is
classified Kept by every variant without the rasterize/OCR stage being
invoked.  For `CleanerBase1`/`CleanerBase2` this is expressed as
independence from the OCR oracle: with the same non-empty text layer, any
two OCR oracles give the same Kept verdict.  For `CleanerBase.process_pdf`,
OCR is invoked exactly on the indices in `blank_pages_text` (source lines
75-79), so such a page's index is in neither `blank_pages_text` (never
OCRed) nor `blank_pages_ocr` (never dropped). -/
theorem text_nonempty_kept_no_ocr :
    (∀ (t : String) (o : OcrOutcome), pyStrip t ≠ "" →
      CleanerBase1.is_blank_page ⟨some t, o⟩ = false ∧
      CleanerBase2.is_blank_page ⟨some t, o⟩ = false) ∧
    (∀ (doc : List Page) (i : Nat) (p : Page) (t : String),
      doc.get? i = some p → p.extract_text = some t → pyStrip t ≠ "" →
      i ∉ CleanerBase.blank_pages_text doc ∧ i ∉ CleanerBase.blank_pages_ocr doc) := by
  constructor
  · intro t o ht
    constructor
    · simp [CleanerBase1.is_blank_page, ht]
    · simp [CleanerBase2.is_blank_page, ht]
  · intro doc i p t hg hp ht
    have hnot : i ∉ CleanerBase.blank_pages_text doc := by
      intro hmem
      obtain ⟨q, hq, hqe⟩ := mem_blank_pages_text hmem
      rw [hg] at hq
      cases hq
      simp [textLayerEmpty, hp] at hqe
      exact ht hqe
    exact ⟨hnot, fun hmem => hnot (blank_pages_ocr_subset doc hmem)⟩

/-- C5 witness: a concrete page with text layer "hello" and an OCR oracle
that would raise. -/
theorem text_nonempty_kept_no_ocr_witness :
    CleanerBase1.is_blank_page ⟨some "hello", OcrOutcome.raises⟩ = false ∧
    (0 : Nat) ∉ CleanerBase.blank_pages_text [⟨some "hello", OcrOutcome.raises⟩] :=
  ⟨(text_nonempty_kept_no_ocr.1 "hello" OcrOutcome.raises (by decide)).1,
    (text_nonempty_kept_no_ocr.2 [⟨some "hello", OcrOutcome.raises⟩] 0
      ⟨some "hello", OcrOutcome.raises⟩ "hello" rfl rfl (by decide)).1⟩

/-- C6: for a page whose text layer strips to empty and whose OCR succeeds
with output `s`, classification is exactly the threshold rule: blank
(DroppedByOcr) iff the stripped OCR text has fewer than 5 characters, Kept
iff it has 5 or more — in `CleanerBase1.is_blank_page` and in
`CleanerBase.check_blank_page` with `use_ocr`. -/
theorem ocr_threshold_rule :
    ∀ (p : Page) (s : String), textLayerEmpty p = true → p.ocr = OcrOutcome.text s →
      CleanerBase1.is_blank_page p = decide ((pyStrip s).length < 5) ∧
      CleanerBase.check_blank_page p true = decide ((pyStrip s).length < 5) := by
  intro p s hempty hocr
  have hstage : CleanerBase1.ocr_stage p = decide ((pyStrip s).length < 5) := by
    obtain ⟨te, o⟩ := p
    change o = OcrOutcome.text s at hocr
    subst hocr
    simp only [CleanerBase1.ocr_stage, CleanerBase1.OCR_TEXT_LENGTH_THRESHOLD]
    by_cases hlen : 5 ≤ (pyStrip s).length
    · have hs : s ≠ "" := fun h => absurd (h ▸ hlen) (by decide)
      rw [if_pos ⟨hs, hlen⟩]
      have hnot : ¬((pyStrip s).length < 5) := Nat.not_lt.mpr hlen
      simp [hnot]
    · rw [if_neg (fun hc => hlen hc.2)]
      have hlt : (pyStrip s).length < 5 := Nat.lt_of_not_le hlen
      simp [hlt]
  refine ⟨?_, ?_⟩
  · cases hp : p.extract_text with
    | none => simp [CleanerBase1.is_blank_page, hp, hstage]
    | some t =>
        have ht : pyStrip t = "" := by simpa [textLayerEmpty, hp] using hempty
        simp [CleanerBase1.is_blank_page, hp, ht, hstage]
  · simp [CleanerBase.check_blank_page, hocr]

/-- C6 witness: empty text layer, OCR returns "Hello World" (stripped length
11 ≥ 5): both classifiers return Kept. -/
theorem ocr_threshold_rule_witness :
    textLayerEmpty ⟨some "", OcrOutcome.text "Hello World"⟩ = true ∧
    CleanerBase1.is_blank_page ⟨some "", OcrOutcome.text "Hello World"⟩ =
      decide ((pyStrip "Hello World").length < 5) :=
  ⟨by decide,
    (ocr_threshold_rule ⟨some "", OcrOutcome.text "Hello World"⟩ "Hello World"
      (by decide) rfl).1⟩

/-- C7: a page is dropped only if flagged blank by the text pass and then
confirmed blank by the OCR pass.  In `CleanerBase.process_pdf` the dropped
indices (`blank_pages_ocr`) are a subset of the text-flagged indices
(`blank_pages_text`), every text-flagged index has an empty-stripping text
layer, and every dropped index was additionally confirmed by the OCR check;
OCR is invoked exactly on `blank_pages_text` (lines 77-79).  In
`CleanerBase1`, a blank verdict requires both the empty text layer and a
blank OCR-stage verdict. -/
theorem dropped_requires_text_and_ocr :
    (∀ doc : List Page,
      CleanerBase.blank_pages_ocr doc ⊆ CleanerBase.blank_pages_text doc) ∧
    (∀ (doc : List Page) (i : Nat), i ∈ CleanerBase.blank_pages_text doc →
      ∃ p, doc.get? i = some p ∧ textLayerEmpty p = true) ∧
    (∀ (doc : List Page) (i : Nat), i ∈ CleanerBase.blank_pages_ocr doc →
      ∃ p, doc.get? i = some p ∧ textLayerEmpty p = true ∧
        CleanerBase.check_blank_page p true = true) ∧
    (∀ p : Page, CleanerBase1.is_blank_page p = true →
      textLayerEmpty p = true ∧ CleanerBase1.ocr_stage p = true) := by
  exact ⟨blank_pages_ocr_subset, fun _ _ h => mem_blank_pages_text h,
    fun _ _ h => mem_blank_pages_ocr h, fun _ h => is_blank_page1_split h⟩

/-- C7 witness: a page with empty text whose OCR returns nothing is blank in
`CleanerBase1`, and the theorem recovers both facts from that verdict. -/
theorem dropped_requires_text_and_ocr_witness :
    textLayerEmpty ⟨some "", OcrOutcome.text ""⟩ = true ∧
    CleanerBase1.ocr_stage ⟨some "", OcrOutcome.text ""⟩ = true :=
  dropped_requires_text_and_ocr.2.2.2 ⟨some "", OcrOutcome.text ""⟩ (by decide)

/-- A concrete page that every variant classifies blank: empty text layer,
OCR returning the empty string. -/
def pageBlank : Page := ⟨some "", OcrOutcome.text ""⟩

/-- A concrete page with the text layer "hello", kept by every variant. -/
def pageHello : Page := ⟨some "hello", OcrOutcome.text "hello"⟩

/-- First three cancellation facts for `process_files`, by induction over the
file list: the processed records are a prefix of the input, every processed
file saw the flag unset at its pre-file check, and once the flag is set at
the check for index `i` at most `i` files are processed. -/
theorem process_files_aux (files : List String) (stop_requested : Nat → Bool) :
    CleanerBase.process_files files stop_requested <+: files ∧
    (∀ i, i < (CleanerBase.process_files files stop_requested).length →
      stop_requested i = false) ∧
    (∀ i, stop_requested i = true →
      (CleanerBase.process_files files stop_requested).length ≤ i) := by
  induction files generalizing stop_requested with
  | nil =>
      refine ⟨List.nil_prefix, ?_, ?_⟩
      · intro i hi
        simp [CleanerBase.process_files] at hi
      · intro i _
        simp [CleanerBase.process_files]
  | cons f fs ih =>
      by_cases h0 : stop_requested 0 = true
      · have hred : CleanerBase.process_files (f :: fs) stop_requested = [] := by
          simp [CleanerBase.process_files, h0]
        rw [hred]
        refine ⟨List.nil_prefix, ?_, ?_⟩
        · intro i hi
          simp at hi
        · intro i _
          simp
      · obtain ⟨⟨t, ht⟩, hunset, hbound⟩ := ih (fun i => stop_requested (i + 1))
        have hred : CleanerBase.process_files (f :: fs) stop_requested =
            f :: CleanerBase.process_files fs (fun i => stop_requested (i + 1)) := by
          simp [CleanerBase.process_files, h0]
        rw [hred]
        refine ⟨⟨t, by rw [List.cons_append, ht]⟩, ?_, ?_⟩
        · intro i hi
          cases i with
          | zero =>
              cases hb : stop_requested 0 with
              | false => rfl
              | true => exact absurd hb h0
          | succ j =>
              exact hunset j (Nat.lt_of_succ_lt_succ hi)
        · intro i hs
          cases i with
          | zero => exact absurd hs h0
          | succ j => exact Nat.succ_le_succ (hbound j hs)

/-- C9: `CleanerBase.process_files` reads the stop flag before each file
(`stop_requested i` is the flag at the check preceding file `i`): the
produced per-file records are a prefix of the input list, every file it
processed was started with the flag still unset, once the flag is set at
check `i` no file from index `i` on is processed, and if the flag is set
before the end of the list the record list is a strict prefix. -/
theorem batch_cancellation_stops_early :
    ∀ (files : List String) (stop_requested : Nat → Bool),
      CleanerBase.process_files files stop_requested <+: files ∧
      (∀ i, i < (CleanerBase.process_files files stop_requested).length →
        stop_requested i = false) ∧
      (∀ i, stop_requested i = true →
        (CleanerBase.process_files files stop_requested).length ≤ i) ∧
      (∀ i, stop_requested i = true → i < files.length →
        (CleanerBase.process_files files stop_requested).length < files.length) := by
  intro files stop_requested
  obtain ⟨h1, h2, h3⟩ := process_files_aux files stop_requested
  exact ⟨h1, h2, h3, fun i hs hlen => Nat.lt_of_le_of_lt (h3 i hs) hlen⟩

/-- C9 witness: four files, cancellation requested after two completed. -/
theorem batch_cancellation_stops_early_witness :
    CleanerBase.process_files ["a", "b", "c", "d"] (fun i => decide (2 ≤ i)) <+:
      ["a", "b", "c", "d"] ∧
    (CleanerBase.process_files ["a", "b", "c", "d"] (fun i => decide (2 ≤ i))).length ≤ 2 :=
  ⟨(batch_cancellation_stops_early ["a", "b", "c", "d"] (fun i => decide (2 ≤ i))).1,
    (batch_cancellation_stops_early ["a", "b", "c", "d"] (fun i => decide (2 ≤ i))).2.2.1 2
      (by decide)⟩

/-- Any page whose text layer strips to empty is classified blank by
`CleanerBase2.is_blank_page`, whatever its OCR oracle does. -/
theorem cleanerBase2_blank_of_textEmpty {p : Page} (h : textLayerEmpty p = true) :
    CleanerBase2.is_blank_page p = true := by
  cases hp : p.extract_text with
  | none => simp [CleanerBase2.is_blank_page, hp, cleanerBase2_ocr_stage_true p]
  | some t =>
      have ht : pyStrip t = "" := by simpa [textLayerEmpty, hp] using h
      simp [CleanerBase2.is_blank_page, hp, ht, cleanerBase2_ocr_stage_true p]

/-- C10: `CleanerBase2` never binds `OCR_TEXT_LENGTH_THRESHOLD`, so whenever
the OCR output strips to a non-empty string, evaluating the comparison on
line 50 raises `NameError`; the surrounding `except Exception` handler turns
that into a blank verdict, and indeed every page whose extracted text strips
to empty is classified blank in this variant, regardless of its OCR
content. -/
theorem cleanerBase2_always_blank :
    (∀ s : String, pyStrip s ≠ "" →
      CleanerBase2.threshold_test s = Except.error CleanerBase2.PyError.nameError) ∧
    (∀ p : Page, textLayerEmpty p = true → CleanerBase2.is_blank_page p = true) := by
  constructor
  · intro s hs
    have hne : s ≠ "" := fun h => hs (by rw [h, pyStrip_empty])
    simp [CleanerBase2.threshold_test, hne, CleanerBase2.OCR_TEXT_LENGTH_THRESHOLD]
  · intro p hempty
    exact cleanerBase2_blank_of_textEmpty hempty

/-- C10 witness: OCR reads "Hello World" on a whitespace-only page; the
threshold comparison raises `NameError` and the page is classified blank. -/
theorem cleanerBase2_always_blank_witness :
    CleanerBase2.threshold_test "Hello World" =
      Except.error CleanerBase2.PyError.nameError ∧
    CleanerBase2.is_blank_page ⟨some " ", OcrOutcome.text "Hello World"⟩ = true :=
  ⟨cleanerBase2_always_blank.1 "Hello World" (by decide),
    cleanerBase2_always_blank.2 ⟨some " ", OcrOutcome.text "Hello World"⟩ (by decide)⟩

/-- C1 counterexample: a page whose text layer strips to empty and whose OCR
raises is classified blank — not Kept — by `CleanerBase1.is_blank_page`
(lines 56-59 return `True` on exception), and a `CleanerBase1.process_pdf`
run on a two-page document removes that page. -/
theorem ocr_failure_counterexample :
    CleanerBase1.is_blank_page ⟨some "", OcrOutcome.raises⟩ = true ∧
    (CleanerBase1.process_pdf
        ⟨[⟨some "", OcrOutcome.raises⟩, pageHello], false, false, false, false, false⟩).1 =
      PyOutcome.success 2 1 := by
  decide

/-- C1 amended: in `CleanerBase.check_blank_page` an OCR failure yields Kept
and, the classifier being a pure function of the page, any number of
repeated failing calls yields Kept each time; but in `CleanerBase1` and
`CleanerBase2`, an OCR failure on a page whose text layer strips to empty
classifies the page blank. -/
theorem ocr_failure_policy :
    (∀ p : Page, p.ocr = OcrOutcome.raises →
      CleanerBase.check_blank_page p true = false ∧
      ∀ (n : Nat) (b : Bool),
        b ∈ List.replicate n (CleanerBase.check_blank_page p true) → b = false) ∧
    (∀ p : Page, p.ocr = OcrOutcome.raises → textLayerEmpty p = true →
      CleanerBase1.is_blank_page p = true ∧ CleanerBase2.is_blank_page p = true) := by
  constructor
  · intro p hocr
    have h : CleanerBase.check_blank_page p true = false := by
      simp [CleanerBase.check_blank_page, hocr]
    exact ⟨h, fun n b hb => (List.eq_of_mem_replicate hb).trans h⟩
  · intro p hocr hempty
    have hstage1 : CleanerBase1.ocr_stage p = true := by
      simp [CleanerBase1.ocr_stage, hocr]
    have h1 : CleanerBase1.is_blank_page p = true := by
      cases hp : p.extract_text with
      | none => simp [CleanerBase1.is_blank_page, hp, hstage1]
      | some t =>
          have ht : pyStrip t = "" := by simpa [textLayerEmpty, hp] using hempty
          simp [CleanerBase1.is_blank_page, hp, ht, hstage1]
    exact ⟨h1, cleanerBase2_blank_of_textEmpty hempty⟩

/-- C1 amended witness: concrete pages with a raising OCR oracle. -/
theorem ocr_failure_policy_witness :
    CleanerBase.check_blank_page ⟨some "x", OcrOutcome.raises⟩ true = false ∧
    CleanerBase1.is_blank_page ⟨none, OcrOutcome.raises⟩ = true :=
  ⟨(ocr_failure_policy.1 ⟨some "x", OcrOutcome.raises⟩ rfl).1,
    (ocr_failure_policy.2 ⟨none, OcrOutcome.raises⟩ rfl (by decide)).1⟩

/-- C2 counterexample: on a one-page document whose only page is classified
blank, `CleanerBase.process_pdf` never produces an all-pages-blank refusal:
if saving a zero-page document raises, it ends in the generic error outcome
with the backup left behind; if it does not raise, a zero-page document is
written over the original and the run reports Modified. -/
theorem all_blank_refusal_counterexample :
    CleanerBase.process_pdf ⟨[pageBlank], false, true⟩ =
      (CleanerBase.Outcome.errorOther, [FsEvent.copyToBackup]) ∧
    (CleanerBase.process_pdf ⟨[pageBlank], false, false⟩).1 =
      CleanerBase.Outcome.modified 1 1 ∧
    (applyEvents (FS.init [pageBlank])
        (CleanerBase.process_pdf ⟨[pageBlank], false, false⟩).2).original =
      FileData.rebuilt [] := by
  decide

/-- C2 amended: the PyPDF2 variants (`CleanerBase1`, `CleanerBase2`) do
refuse the rebuild when every page is classified blank: the outcome is
all-pages-blank, the only filesystem effect is the initial backup copy, so
the original remains byte-identical, no temp file exists and no zero-page
document is written — but the backup file remains on disk.  (`CleanerBase`
has no such refusal; see the counterexample.) -/
theorem all_blank_refused_pypdf :
    ∀ (is_blank : Page → Bool) (loc : TempLoc) (env : PyEnv),
      env.backupFails = false → env.readFails = false →
      (env.doc.filter fun p => !(is_blank p)).isEmpty = true →
      py_process_pdf is_blank loc env =
        (PyOutcome.allPagesBlank, [FsEvent.copyToBackup]) ∧
      applyEvents (FS.init env.doc) (py_process_pdf is_blank loc env).2 =
        ⟨FileData.originalBytes env.doc, some (FileData.originalBytes env.doc), none⟩ := by
  intro is_blank loc env hb hr hk
  have h : py_process_pdf is_blank loc env =
      (PyOutcome.allPagesBlank, [FsEvent.copyToBackup]) := by
    simp [py_process_pdf, hb, hr, hk]
  refine ⟨h, ?_⟩
  rw [h]
  rfl

/-- C2 amended witness: a one-page all-blank document under `CleanerBase1`. -/
theorem all_blank_refused_pypdf_witness :
    CleanerBase1.process_pdf ⟨[pageBlank], false, false, false, false, false⟩ =
      (PyOutcome.allPagesBlank, [FsEvent.copyToBackup]) :=
  (all_blank_refused_pypdf CleanerBase1.is_blank_page TempLoc.sameDir
      ⟨[pageBlank], false, false, false, false, false⟩ rfl rfl (by decide)).1

/-- C3 counterexample: when the rebuild proceeds, `CleanerBase.process_pdf`
saves the trimmed document **directly onto the original path** (a
`saveToOriginal` event, no temp file at all), and `CleanerBase2.process_pdf`
does write a temp file first but creates it in the system temp directory,
not in the original's directory. -/
theorem temp_then_move_counterexample :
    CleanerBase.process_pdf ⟨[pageBlank, pageHello], false, false⟩ =
      (CleanerBase.Outcome.modified 2 1,
        [FsEvent.copyToBackup, FsEvent.saveToOriginal (FileData.rebuilt [pageHello]),
          FsEvent.removeBackup]) ∧
    CleanerBase2.process_pdf ⟨[pageBlank, pageHello], false, false, false, false, false⟩ =
      (PyOutcome.success 2 1,
        [FsEvent.copyToBackup,
          FsEvent.writeTemp TempLoc.systemTmp (FileData.rebuilt [pageHello]),
          FsEvent.moveTempToOriginal, FsEvent.removeBackup]) := by
  decide

/-- C3 amended: the PyPDF2 transaction never writes the original path
directly (no `saveToOriginal` event is ever emitted, in any environment),
and its fully successful runs write the trimmed document to a temp file
first and then move it onto the original in one step; `CleanerBase1` places
that temp file in the same directory as the original (`file_path + ".temp"`),
while `CleanerBase2` places it in the system temp directory and
`CleanerBase` saves directly onto the original (see counterexample). -/
theorem temp_then_move_policy :
    (∀ (is_blank : Page → Bool) (loc : TempLoc) (env : PyEnv) (d : FileData),
      FsEvent.saveToOriginal d ∉ (py_process_pdf is_blank loc env).2) ∧
    (∀ env : PyEnv,
      env.backupFails = false → env.readFails = false → env.writeFails = false →
      env.moveFails = false → env.removeBackupFails = false →
      (env.doc.filter fun p => !(CleanerBase1.is_blank_page p)).isEmpty = false →
      CleanerBase1.process_pdf env =
        (PyOutcome.success env.doc.length
            (env.doc.filter CleanerBase1.is_blank_page).length,
          [FsEvent.copyToBackup,
            FsEvent.writeTemp TempLoc.sameDir
              (FileData.rebuilt (env.doc.filter fun p => !(CleanerBase1.is_blank_page p))),
            FsEvent.moveTempToOriginal, FsEvent.removeBackup])) := by
  constructor
  · intro is_blank loc env d
    simp only [py_process_pdf]
    split_ifs <;> simp
  · intro env hb hr hw hm hrb hk
    simp [CleanerBase1.process_pdf, py_process_pdf, hb, hr, hw, hm, hrb, hk]

/-- C3 amended witness: a concrete successful `CleanerBase1` run. -/
theorem temp_then_move_policy_witness :
    FsEvent.saveToOriginal (FileData.rebuilt [pageHello]) ∉
      (py_process_pdf CleanerBase1.is_blank_page TempLoc.sameDir
        ⟨[pageBlank, pageHello], false, false, false, false, false⟩).2 ∧
    CleanerBase1.process_pdf ⟨[pageBlank, pageHello], false, false, false, false, false⟩ =
      (PyOutcome.success ([pageBlank, pageHello] : List Page).length
          (([pageBlank, pageHello] : List Page).filter CleanerBase1.is_blank_page).length,
        [FsEvent.copyToBackup,
          FsEvent.writeTemp TempLoc.sameDir
            (FileData.rebuilt (([pageBlank, pageHello] : List Page).filter
              fun p => !(CleanerBase1.is_blank_page p))),
          FsEvent.moveTempToOriginal, FsEvent.removeBackup]) :=
  ⟨temp_then_move_policy.1 CleanerBase1.is_blank_page TempLoc.sameDir
      ⟨[pageBlank, pageHello], false, false, false, false, false⟩
      (FileData.rebuilt [pageHello]),
    temp_then_move_policy.2 ⟨[pageBlank, pageHello], false, false, false, false, false⟩
      rfl rfl rfl rfl rfl (by decide)⟩

/-- C4 counterexample: `CleanerBase2.process_pdf` on a one-page document
with no blank page still re-serializes the document and moves it onto the
original (the original's byte content after the run is the writer's output,
not the original bytes), and reports plain success with removed = 0 rather
than an untouched-file outcome. -/
theorem unchanged_counterexample :
    CleanerBase2.process_pdf ⟨[pageHello], false, false, false, false, false⟩ =
      (PyOutcome.success 1 0,
        [FsEvent.copyToBackup,
          FsEvent.writeTemp TempLoc.systemTmp (FileData.rebuilt [pageHello]),
          FsEvent.moveTempToOriginal, FsEvent.removeBackup]) ∧
    (applyEvents (FS.init [pageHello])
        (CleanerBase2.process_pdf ⟨[pageHello], false, false, false, false, false⟩).2).original =
      FileData.rebuilt [pageHello] ∧
    FileData.rebuilt [pageHello] ≠ FileData.originalBytes [pageHello] := by
  decide

/-- C4 amended: in `CleanerBase`, a run with no confirmed blank page
performs no filesystem effect at all (no backup is ever created, the
original is untouched) and reports No-changes with removed = 0; in the
PyPDF2 variants a zero-drop run still rewrites the file — the original's
byte content is replaced by the writer's serialization of the same pages —
and deletes the backup, reporting success with removed = 0. -/
theorem no_drop_behavior :
    (∀ env : CleanerBase.Env, env.openFails = false →
      (CleanerBase.blank_pages_ocr env.doc).isEmpty = true →
      CleanerBase.process_pdf env =
        (CleanerBase.Outcome.noChanges env.doc.length, []) ∧
      applyEvents (FS.init env.doc) (CleanerBase.process_pdf env).2 = FS.init env.doc) ∧
    (∀ (is_blank : Page → Bool) (loc : TempLoc) (env : PyEnv),
      env.backupFails = false → env.readFails = false → env.writeFails = false →
      env.moveFails = false → env.removeBackupFails = false →
      env.doc.filter is_blank = [] → env.doc ≠ [] →
      py_process_pdf is_blank loc env =
        (PyOutcome.success env.doc.length 0,
          [FsEvent.copyToBackup, FsEvent.writeTemp loc (FileData.rebuilt env.doc),
            FsEvent.moveTempToOriginal, FsEvent.removeBackup]) ∧
      applyEvents (FS.init env.doc) (py_process_pdf is_blank loc env).2 =
        ⟨FileData.rebuilt env.doc, none, none⟩) := by
  constructor
  · intro env ho hd
    have h : CleanerBase.process_pdf env =
        (CleanerBase.Outcome.noChanges env.doc.length, []) := by
      simp [CleanerBase.process_pdf, ho, hd]
    exact ⟨h, by rw [h]; rfl⟩
  · intro is_blank loc env hb hr hw hm hrb hfil hne
    have hall : ∀ p ∈ env.doc, is_blank p = false := by
      intro p hp
      have hnp := List.filter_eq_nil_iff.mp hfil p hp
      simpa using hnp
    have hkept : (env.doc.filter fun p => !(is_blank p)) = env.doc :=
      List.filter_eq_self.mpr (fun p hp => by simp [hall p hp])
    have hkne : (env.doc.filter fun p => !(is_blank p)).isEmpty = false := by
      rw [hkept]
      cases henv : env.doc with
      | nil => exact absurd henv hne
      | cons a l => rfl
    have hrem : (env.doc.filter is_blank).length = 0 := by rw [hfil]; rfl
    have h : py_process_pdf is_blank loc env =
        (PyOutcome.success env.doc.length 0,
          [FsEvent.copyToBackup, FsEvent.writeTemp loc (FileData.rebuilt env.doc),
            FsEvent.moveTempToOriginal, FsEvent.removeBackup]) := by
      simp [py_process_pdf, hb, hr, hw, hm, hrb, hkne, hkept, hrem, hne]
    refine ⟨h, ?_⟩
    rw [h]
    rfl

/-- C4 amended witness: a one-page non-blank document under `CleanerBase`
(no effects) and under `CleanerBase1` (file rewritten, backup gone). -/
theorem no_drop_behavior_witness :
    CleanerBase.process_pdf ⟨[pageHello], false, false⟩ =
      (CleanerBase.Outcome.noChanges ([pageHello] : List Page).length, []) ∧
    applyEvents (FS.init [pageHello])
        (py_process_pdf CleanerBase1.is_blank_page TempLoc.sameDir
          ⟨[pageHello], false, false, false, false, false⟩).2 =
      ⟨FileData.rebuilt [pageHello], none, none⟩ :=
  ⟨(no_drop_behavior.1 ⟨[pageHello], false, false⟩ rfl (by decide)).1,
    (no_drop_behavior.2 CleanerBase1.is_blank_page TempLoc.sameDir
      ⟨[pageHello], false, false, false, false, false⟩ rfl rfl rfl rfl rfl (by decide)
      (by decide)).2⟩

/-- C8 counterexample: backup copy succeeds, `PdfReader` fails: the run
reports the read-failed outcome, but the backup file it created is still on
disk afterwards — the claim's "removes the backup file" does not hold. -/
theorem read_failed_counterexample :
    (CleanerBase2.process_pdf ⟨[pageHello], false, true, false, false, false⟩).1 =
      PyOutcome.readFailed ∧
    (applyEvents (FS.init [pageHello])
        (CleanerBase2.process_pdf ⟨[pageHello], false, true, false, false, false⟩).2).backup =
      some (FileData.originalBytes [pageHello]) := by
  decide

/-- C8 amended: when the backup copy succeeds but reading the document
fails, both PyPDF2 variants report the read-failed outcome and leave the
original byte-identical, but the backup file remains on disk — it is not
removed. -/
theorem read_failed_policy :
    ∀ (is_blank : Page → Bool) (loc : TempLoc) (env : PyEnv),
      env.backupFails = false → env.readFails = true →
      py_process_pdf is_blank loc env = (PyOutcome.readFailed, [FsEvent.copyToBackup]) ∧
      applyEvents (FS.init env.doc) (py_process_pdf is_blank loc env).2 =
        ⟨FileData.originalBytes env.doc, some (FileData.originalBytes env.doc), none⟩ := by
  intro is_blank loc env hb hr
  have h : py_process_pdf is_blank loc env =
      (PyOutcome.readFailed, [FsEvent.copyToBackup]) := by
    simp [py_process_pdf, hb, hr]
  refine ⟨h, ?_⟩
  rw [h]
  rfl

/-- C8 amended witness: a concrete read-failure run under `CleanerBase1`. -/
theorem read_failed_policy_witness :
    py_process_pdf CleanerBase1.is_blank_page TempLoc.sameDir
        ⟨[pageBlank], false, true, false, false, false⟩ =
      (PyOutcome.readFailed, [FsEvent.copyToBackup]) :=
  (read_failed_policy CleanerBase1.is_blank_page TempLoc.sameDir
      ⟨[pageBlank], false, true, false, false, false⟩ rfl rfl).1

end PDFCleaner
